import Mathlib

/-!
Shallow embedding of the Universal Accessibility Companion repository
(`src/services/geminiService.ts`, the App component in `src/types.ts`,
`src/unnamed/part_000` = constants, `src/unnamed/part_001` = OutputDisplay /
Button / ModeCard components).

JavaScript string primitives (`split`, `trim`, `startsWith`, `includes`,
first-occurrence `replace`) are embedded as structurally recursive Lean
functions over the character list of a `String`, so that all definitions are
executable and kernel-reducible.
-/

/-! ## JavaScript string primitives -/

/-- Character class of the JavaScript regular-expression escape `\s`
(whitespace): tab, LF, VT, FF, CR, space, NBSP, and the Unicode space
separators, plus the BOM. -/
def isJsSpace (c : Char) : Bool :=
  c = '\t' || c = '\n' || c = '\x0b' || c = '\x0c' || c = '\r' || c = ' ' ||
  c = '\u00A0' || c = '\u1680' || ('\u2000' ≤ c && c ≤ '\u200A') ||
  c = '\u2028' || c = '\u2029' || c = '\u202F' || c = '\u205F' ||
  c = '\u3000' || c = '\uFEFF'

/-- Fuel-indexed worker for `jsSplit`. `fuel` bounds the number of characters
still to be consumed; it is initialised with the length of the subject string,
which suffices because every step consumes at least one character. -/
def jsSplitAux (sep : List Char) : Nat → List Char → List Char → List (List Char)
  | _, cur, [] => [cur.reverse]
  | 0, cur, c :: rest => [cur.reverse ++ (c :: rest)]
  | fuel + 1, cur, c :: rest =>
    if sep ≠ [] && List.isPrefixOf sep (c :: rest) then
      cur.reverse :: jsSplitAux sep fuel [] (List.drop (sep.length - 1) rest)
    else
      jsSplitAux sep fuel (c :: cur) rest

/-- JavaScript `s.split(sep)` for a non-empty string separator. -/
def jsSplit (s sep : String) : List String :=
  (jsSplitAux sep.data s.data.length [] s.data).map String.mk

/-- JavaScript `s.startsWith(pat)`. -/
def jsStartsWith (s pat : String) : Bool :=
  List.isPrefixOf pat.data s.data

/-- Worker for `jsIncludes`: does `pat` occur as a contiguous sublist? -/
def listContainsSeq (pat : List Char) : List Char → Bool
  | [] => List.isPrefixOf pat []
  | c :: rest => List.isPrefixOf pat (c :: rest) || listContainsSeq pat rest

/-- JavaScript `s.includes(pat)` for a non-empty `pat`. -/
def jsIncludes (s pat : String) : Bool :=
  listContainsSeq pat.data s.data

/-- JavaScript `s.trim()`. -/
def jsTrim (s : String) : String :=
  String.mk (((s.data.dropWhile isJsSpace).reverse.dropWhile isJsSpace).reverse)

/-- JavaScript `s.replace(pat, "")` with a plain-string pattern: removes the
first occurrence of `pat` (and only the first), or returns `s` unchanged when
`pat` does not occur. -/
def jsRemoveFirst (s pat : String) : String :=
  match jsSplit s pat with
  | x :: y :: rest => x ++ String.intercalate pat (y :: rest)
  | _ => s

/-- JavaScript truthiness of a `string` value: `""` is falsy. -/
def strTruthy (s : String) : Bool :=
  s != ""

/-- JavaScript truthiness of a `string | undefined | null` value:
`undefined`, `null` and `""` are falsy. -/
def optTruthy : Option String → Bool
  | none => false
  | some s => s != ""

/-! ## Data model (`src/types.ts`) -/

/-- Embeds `enum AppMode` from `src/types.ts`. -/
inductive AppMode
  | DESCRIBE
  | SIMPLIFY
  | GUIDE
deriving DecidableEq, Repr

/-- Embeds `interface AnalysisRequest` from `src/types.ts`; the optional fields are
`Option`s. -/
structure AnalysisRequest where
  text : String
  imageBase64 : Option String
  imageMimeType : Option String
  mode : AppMode
deriving DecidableEq, Repr

/-- Embeds `interface AnalysisResponse` from `src/types.ts`; `error?` is an `Option`. -/
structure AnalysisResponse where
  markdown : String
  error : Option String
deriving DecidableEq, Repr

/-- Embeds `interface HistoryItem` from `src/types.ts`. `id` is the stringified
timestamp in the code, so it stays a `String` here. -/
structure HistoryItem where
  id : String
  timestamp : Nat
  mode : AppMode
  inputText : String
  response : String
  hasImage : Bool
deriving DecidableEq, Repr

/-! ## Analysis client (`src/services/geminiService.ts`) -/

/-- One element of the `parts` array sent to `generateContent` (named `ContentPart` here because `Part` already exists in Mathlib): either an
`inlineData` image segment or a `text` segment. -/
inductive ContentPart
  | inlineData (mimeType : String) (data : String)
  | text (content : String)
deriving DecidableEq, Repr

/-- Embeds `request.imageBase64.split(",")[1] || request.imageBase64`: strips a data
URL header if present; when index 1 is `undefined` (no comma) or `""` (falsy),
the original string is used. -/
def stripDataUrl (s : String) : String :=
  match jsSplit s "," with
  | _ :: second :: _ => if second = "" then s else second
  | _ => s

/-- The fixed task-instruction string appended for each mode by the `switch`
in `analyzeContent` (one literal per mode). -/
def modeTask : AppMode → String
  | .DESCRIBE => "Task: Perform a \x27Describe\x27 analysis. Focus on layout, sections, and accessibility relevant details."
  | .SIMPLIFY => "Task: Perform a \x27Simplify\x27 analysis. Extract text and rewrite it in plain, simple language with bullet points."
  | .GUIDE => "Task: Perform a \x27Guide\x27 analysis. Provide step-by-step instructions on how to interact with this content."

/-- The `parts` array built inside `analyzeContent` (lines 21-56 of
`src/services/geminiService.ts`), with the imperative pushes rendered as
let-rebinding: an optional image segment (guarded by the truthiness of BOTH
`imageBase64` and `imageMimeType`) followed by the single prompt text
segment. -/
def buildParts (request : AnalysisRequest) : List ContentPart :=
  let parts : List ContentPart := []
  let parts :=
    if optTruthy request.imageBase64 && optTruthy request.imageMimeType then
      parts ++ [ContentPart.inlineData (request.imageMimeType.getD "")
                  (stripDataUrl (request.imageBase64.getD ""))]
    else parts
  let prompt : String := ""
  let prompt :=
    if strTruthy request.text then
      prompt ++ "User Input: \x22" ++ request.text ++ "\x22\n\n"
    else
      prompt ++ "Analyze the provided image.\n\n"
  let prompt := prompt ++ modeTask request.mode
  parts ++ [ContentPart.text prompt]

/-- Outcome of the `client.models.generateContent` call, seen from the
`try` block: the call either resolves with a response whose `text` field is
modelled as a `String` (`""` covers both an empty and an absent `text`), or
rejects with an exception whose `message` is modelled as a `String` (`""`
covers an absent message). -/
inductive BackendReply
  | ok (text : String)
  | exn (message : String)
deriving DecidableEq, Repr

/-- Embeds `analyzeContent` from `src/services/geminiService.ts`, parameterised by the
environment credential `process.env.API_KEY` and by the behaviour of the
backend on the dispatched parts. The `try` block is the `Except` computation;
the `catch` block is the final `match`, applying the JavaScript
`error.message || <default>` fallback. The function is total: it never
throws. -/
def analyzeContent (apiKey : Option String) (backend : List ContentPart → BackendReply)
    (request : AnalysisRequest) : AnalysisResponse :=
  let attempt : Except String String :=
    if !(optTruthy apiKey) then
      Except.error "API Key not found in environment variables"
    else
      match backend (buildParts request) with
      | .exn m => Except.error m
      | .ok t =>
        if t = "" then Except.error "No response generated from the model."
        else Except.ok t
  match attempt with
  | .ok t => { markdown := t, error := none }
  | .error m =>
    { markdown := ""
      error := some (if m = "" then "An unexpected error occurred while processing your request." else m) }

/-! ## Session controller (the App component in `src/types.ts`) -/

/-- The React state of the App component that the submit/history logic touches. -/
structure AppState where
  selectedMode : AppMode
  inputText : String
  selectedImage : Option String
  imageMimeType : Option String
  isAnalyzing : Bool
  responseContent : String
  error : Option String
  history : List HistoryItem
  showHistory : Bool
deriving DecidableEq, Repr

/-- The `newItem` object built by `addToHistory`: both `id` and `timestamp`
come from `Date.now()` (passed in as `now`), and `hasImage` is the truthiness
of the currently selected image. -/
def mkHistoryItem (now : Nat) (text response : String) (s : AppState) : HistoryItem :=
  { id := toString now
    timestamp := now
    mode := s.selectedMode
    inputText := text
    response := response
    hasImage := optTruthy s.selectedImage }

/-- Embeds `addToHistory` of the App component: prepends the new item to the
in-memory history, then tries to persist the whole updated list to
localStorage (modelled by the second component of the state pair). A failing
write (`persistOk = false`, e.g. quota exceeded) is caught and logged only:
the storage keeps its old contents and nothing else changes. -/
def addToHistory (now : Nat) (persistOk : Bool) (text response : String)
    (s : AppState) (store : Option (List HistoryItem)) :
    AppState × Option (List HistoryItem) :=
  let newItem := mkHistoryItem now text response s
  let updatedHistory := newItem :: s.history
  let s1 := { s with history := updatedHistory }
  if persistOk then (s1, some updatedHistory) else (s1, store)

/-- Embeds `loadHistoryItem` of the App component: restores mode, input text and
response text, clears the error, closes the history drawer, and clears the
selected image ONLY when the loaded item was created with an image
(`item.hasImage`); image bytes themselves are never restored. -/
def loadHistoryItem (item : HistoryItem) (s : AppState) : AppState :=
  let s1 := { s with
    selectedMode := item.mode
    inputText := item.inputText
    responseContent := item.response
    error := none
    showHistory := false }
  if item.hasImage then
    { s1 with selectedImage := none, imageMimeType := none }
  else s1

/-- The `request` object built inside `handleSubmit`:
`selectedImage || undefined` and `imageMimeType || undefined` turn falsy
values into `undefined`. -/
def mkRequest (s : AppState) : AnalysisRequest :=
  { text := s.inputText
    imageBase64 := if optTruthy s.selectedImage then s.selectedImage else none
    imageMimeType := if optTruthy s.imageMimeType then s.imageMimeType else none
    mode := s.selectedMode }

/-- Result of one run of `handleSubmit`: the new component state, the new
storage contents, and the request that was dispatched to `analyzeContent`
(`none` when validation rejected the submission before any call). -/
structure SubmitResult where
  state : AppState
  store : Option (List HistoryItem)
  dispatched : Option AnalysisRequest
deriving DecidableEq, Repr

/-- Embeds `handleSubmit` of the App component, parameterised by the behaviour
`analyze` of `analyzeContent`, the clock value `now`, and whether the
localStorage write succeeds. Mirrors the source line by line: the emptiness
guard, the Submitting flags, the dispatch, and the error/success branches. -/
def handleSubmit (analyze : AnalysisRequest → AnalysisResponse) (now : Nat)
    (persistOk : Bool) (s : AppState) (store : Option (List HistoryItem)) :
    SubmitResult :=
  if !(strTruthy s.inputText) && !(optTruthy s.selectedImage) then
    { state := { s with error := some "Please provide either text or an image to analyze." }
      store := store
      dispatched := none }
  else
    let s1 := { s with isAnalyzing := true, error := none, responseContent := "" }
    let request := mkRequest s
    let result := analyze request
    let s2 := { s1 with isAnalyzing := false }
    if optTruthy result.error then
      { state := { s2 with error := result.error }, store := store, dispatched := some request }
    else
      let s3 := { s2 with responseContent := result.markdown }
      let p := addToHistory now persistOk s.inputText result.markdown s3 store
      { state := p.1, store := p.2, dispatched := some request }

/-! ## Response renderer (`renderContent` in the OutputDisplay component,
`src/unnamed/part_001`) -/

/-- One rendered element. `boldPara runs` is the paragraph produced by the
bold branch: the runs are the segments of the line split on `**`, the
odd-indexed runs rendered bold (`<strong>`) and the even-indexed runs plain. -/
inductive Rendered
  | heading (content : String)
  | subheading (content : String)
  | bullet (content : String)
  | boldPara (runs : List String)
  | spacer
  | para (content : String)
deriving DecidableEq, Repr

/-- Embeds the bullet-marker strip `line.replace` with the regular expression
matching a leading `*` or `-` and following whitespace: it removes the marker
with the following run of whitespace, but only when the line itself starts
with the marker immediately followed by at least one whitespace character. -/
def stripBulletMarker (line : String) : String :=
  match line.data with
  | c :: rest =>
    if (c = '*' || c = '-') &&
        (match rest with | d :: _ => isJsSpace d | [] => false) then
      String.mk (rest.dropWhile isJsSpace)
    else line
  | [] => line

/-- One branch of `renderContent`s per-line dispatch, in source order:
`"## "` sub-heading, `"# "` heading, trimmed bullet, line containing `**`,
blank line, plain paragraph. -/
def renderLine (line : String) : Rendered :=
  if jsStartsWith line "## " then
    .subheading (jsRemoveFirst line "## ")
  else if jsStartsWith line "# " then
    .heading (jsRemoveFirst line "# ")
  else if jsStartsWith (jsTrim line) "* " || jsStartsWith (jsTrim line) "- " then
    .bullet (stripBulletMarker line)
  else if jsIncludes line "**" then
    .boldPara (jsSplit line "**")
  else if jsTrim line = "" then
    .spacer
  else
    .para line

/-- Embeds `renderContent` of the OutputDisplay component: split the text on
newlines and render each line independently. -/
def renderContent (text : String) : List Rendered :=
  (jsSplit text "\n").map renderLine

/-! ## Theorems -/


/-- Evaluation lemma: with a falsy credential, `analyzeContent` returns the
missing-credential error response. -/
theorem analyzeContent_of_noKey (apiKey : Option String)
    (backend : List ContentPart → BackendReply) (request : AnalysisRequest)
    (hk : optTruthy apiKey = false) :
    analyzeContent apiKey backend request =
      { markdown := "", error := some "API Key not found in environment variables" } := by
  simp [analyzeContent, hk]

/-- Evaluation lemma: with a truthy credential and a backend that throws,
`analyzeContent` returns the caught exception message (or the generic message
when the exception carries an empty one). -/
theorem analyzeContent_of_exn (apiKey : Option String)
    (backend : List ContentPart → BackendReply) (request : AnalysisRequest) (m : String)
    (hk : optTruthy apiKey = true) (hb : backend (buildParts request) = .exn m) :
    analyzeContent apiKey backend request =
      { markdown := ""
        error := some (if m = "" then "An unexpected error occurred while processing your request." else m) } := by
  simp only [analyzeContent, hk, hb, Bool.not_true, Bool.false_eq_true, if_false]

/-- Evaluation lemma: with a truthy credential and a backend that resolves
with text `t`, `analyzeContent` succeeds with `t` when `t` is non-empty and
fails with the no-response error when `t` is empty. -/
theorem analyzeContent_of_ok (apiKey : Option String)
    (backend : List ContentPart → BackendReply) (request : AnalysisRequest) (t : String)
    (hk : optTruthy apiKey = true) (hb : backend (buildParts request) = .ok t) :
    analyzeContent apiKey backend request =
      if t = "" then
        { markdown := "", error := some "No response generated from the model." }
      else { markdown := t, error := none } := by
  by_cases ht : t = ""
  · subst ht
    simp only [analyzeContent, hk, hb, Bool.not_true, Bool.false_eq_true, if_false,
      if_true, ite_true, ite_false]
    decide
  · simp only [analyzeContent, hk, hb, ht, Bool.not_true, Bool.false_eq_true, if_false,
      if_true, ite_true, ite_false]

/-- C2: `analyzeContent` is total (it never throws), and every failure —
missing API credential, backend exception, or a backend call whose returned
text is empty — is returned as a response with `markdown = ""` and a
non-empty error message; in particular a backend returning empty text yields
exactly the failure "No response generated from the model.", never a
half-populated success. -/
theorem analyzeContent_failure_contract (apiKey : Option String)
    (backend : List ContentPart → BackendReply) (request : AnalysisRequest) :
    (∀ e, (analyzeContent apiKey backend request).error = some e →
      (analyzeContent apiKey backend request).markdown = "" ∧ e ≠ "") ∧
    (optTruthy apiKey = false →
      analyzeContent apiKey backend request =
        { markdown := "", error := some "API Key not found in environment variables" }) ∧
    (∀ m, optTruthy apiKey = true → backend (buildParts request) = .exn m →
      analyzeContent apiKey backend request =
        { markdown := ""
          error := some (if m = "" then "An unexpected error occurred while processing your request." else m) }) ∧
    (optTruthy apiKey = true → backend (buildParts request) = .ok "" →
      analyzeContent apiKey backend request =
        { markdown := "", error := some "No response generated from the model." }) := by
  refine ⟨?_, ?_, ?_, ?_⟩
  · intro e he
    cases hk : optTruthy apiKey with
    | false =>
      rw [analyzeContent_of_noKey apiKey backend request hk] at he ⊢
      simp only [Option.some.injEq] at he
      subst he
      exact ⟨rfl, by decide⟩
    | true =>
      cases hb : backend (buildParts request) with
      | exn m =>
        rw [analyzeContent_of_exn apiKey backend request m hk hb] at he ⊢
        simp only [Option.some.injEq] at he
        subst he
        refine ⟨rfl, ?_⟩
        by_cases hm : m = "" <;> simp [hm]
      | ok t =>
        rw [analyzeContent_of_ok apiKey backend request t hk hb] at he ⊢
        by_cases ht : t = ""
        · rw [if_pos ht] at he ⊢
          simp only [Option.some.injEq] at he
          subst he
          exact ⟨rfl, by decide⟩
        · rw [if_neg ht] at he
          simp at he
  · intro hk
    exact analyzeContent_of_noKey apiKey backend request hk
  · intro m hk hb
    exact analyzeContent_of_exn apiKey backend request m hk hb
  · intro hk hb
    rw [analyzeContent_of_ok apiKey backend request "" hk hb]
    decide

/-- Witness for C2: with a truthy credential and a backend that resolves with
empty text, `analyzeContent` returns the empty-markdown response carrying the
"No response generated from the model." error. -/
theorem analyzeContent_failure_contract_witness :
    analyzeContent (some "key") (fun _ => .ok "")
        { text := "hello", imageBase64 := none, imageMimeType := none, mode := .DESCRIBE } =
      { markdown := "", error := some "No response generated from the model." } :=
  (analyzeContent_failure_contract (some "key") (fun _ => .ok "")
    { text := "hello", imageBase64 := none, imageMimeType := none, mode := .DESCRIBE }).2.2.2
    rfl rfl

/-- C3: every response of `analyzeContent` has both fields, and exactly one of
"markdown non-empty" (with no error) or "error present" (with empty markdown)
holds: on success the markdown is non-empty with no error, on failure the
markdown is empty with an error present. -/
theorem analyzeContent_markdown_error_exclusive (apiKey : Option String)
    (backend : List ContentPart → BackendReply) (request : AnalysisRequest) :
    Xor'
      ((analyzeContent apiKey backend request).markdown ≠ "" ∧
        (analyzeContent apiKey backend request).error = none)
      ((analyzeContent apiKey backend request).markdown = "" ∧
        (analyzeContent apiKey backend request).error ≠ none) := by
  cases hk : optTruthy apiKey with
  | false =>
    rw [analyzeContent_of_noKey apiKey backend request hk]
    simp [Xor']
  | true =>
    cases hb : backend (buildParts request) with
    | exn m =>
      rw [analyzeContent_of_exn apiKey backend request m hk hb]
      simp [Xor']
    | ok t =>
      rw [analyzeContent_of_ok apiKey backend request t hk hb]
      by_cases ht : t = ""
      · rw [if_pos ht]
        simp [Xor']
      · rw [if_neg ht]
        simp [Xor', ht]

/-- C7: rendering the input "## Title\n\n* Point one\n* Point two" yields
exactly four elements in order: the sub-heading "Title", one blank vertical
spacer, the bullet item "Point one", and the bullet item "Point two". -/
theorem renderContent_heading_spacer_bullets :
    renderContent "## Title\n\n* Point one\n* Point two" =
      [Rendered.subheading "Title", Rendered.spacer,
       Rendered.bullet "Point one", Rendered.bullet "Point two"] := by
  decide

/-- C1: when both the free text and the selected image are empty (falsy),
`handleSubmit` rejects before any call to `analyzeContent`: nothing is
dispatched, the validation error is set, and every other component of the
state — in particular the Idle flag `isAnalyzing` and the history sequence —
and the storage are left unchanged. -/
theorem handleSubmit_empty_rejected (analyze : AnalysisRequest → AnalysisResponse)
    (now : Nat) (persistOk : Bool) (s : AppState) (store : Option (List HistoryItem))
    (htext : s.inputText = "") (himg : optTruthy s.selectedImage = false)
    (hidle : s.isAnalyzing = false) :
    (handleSubmit analyze now persistOk s store).dispatched = none ∧
    (handleSubmit analyze now persistOk s store).state =
      { s with error := some "Please provide either text or an image to analyze." } ∧
    (handleSubmit analyze now persistOk s store).state.isAnalyzing = false ∧
    (handleSubmit analyze now persistOk s store).state.history = s.history ∧
    (handleSubmit analyze now persistOk s store).store = store := by
  have hguard : (!(strTruthy s.inputText) && !(optTruthy s.selectedImage)) = true := by
    simp [strTruthy, htext, himg]
  simp only [handleSubmit, hguard, if_true]
  refine ⟨?_, ?_, ?_, ?_, ?_⟩ <;> first | exact hidle | rfl | trivial

/-- Witness for C1: a concrete Idle state with empty text and no image is
rejected with no dispatched request. -/
theorem handleSubmit_empty_rejected_witness :
    (handleSubmit (fun _ => { markdown := "ok", error := none }) 7 true
        { selectedMode := .DESCRIBE, inputText := "", selectedImage := none,
          imageMimeType := none, isAnalyzing := false, responseContent := "",
          error := none, history := [], showHistory := false } none).dispatched = none :=
  (handleSubmit_empty_rejected (fun _ => { markdown := "ok", error := none }) 7 true
    { selectedMode := .DESCRIBE, inputText := "", selectedImage := none,
      imageMimeType := none, isAnalyzing := false, responseContent := "",
      error := none, history := [], showHistory := false } none rfl rfl rfl).1

/-- C4: for every validated submission whose analysis reports no error,
exactly one `HistoryItem` is appended: the new history equals the new item
prepended to the previous sequence, so the prior order is preserved. -/
theorem handleSubmit_success_prepend (analyze : AnalysisRequest → AnalysisResponse)
    (now : Nat) (persistOk : Bool) (s : AppState) (store : Option (List HistoryItem))
    (hvalid : (!(strTruthy s.inputText) && !(optTruthy s.selectedImage)) = false)
    (hok : optTruthy (analyze (mkRequest s)).error = false) :
    (handleSubmit analyze now persistOk s store).state.history =
      { id := toString now, timestamp := now, mode := s.selectedMode,
        inputText := s.inputText, response := (analyze (mkRequest s)).markdown,
        hasImage := optTruthy s.selectedImage } :: s.history := by
  simp only [handleSubmit, hvalid, Bool.false_eq_true, if_false, hok, addToHistory,
    mkHistoryItem]
  cases persistOk <;> rfl

/-- Witness for C4: a concrete successful submission appends exactly its item
at the front of the (empty) history. -/
theorem handleSubmit_success_prepend_witness :
    (handleSubmit (fun _ => { markdown := "out", error := none }) 5 true
        { selectedMode := .SIMPLIFY, inputText := "hello", selectedImage := none,
          imageMimeType := none, isAnalyzing := false, responseContent := "",
          error := none, history := [], showHistory := false } none).state.history =
      [{ id := "5", timestamp := 5, mode := .SIMPLIFY, inputText := "hello",
         response := "out", hasImage := false }] :=
  handleSubmit_success_prepend (fun _ => { markdown := "out", error := none }) 5 true
    { selectedMode := .SIMPLIFY, inputText := "hello", selectedImage := none,
      imageMimeType := none, isAnalyzing := false, responseContent := "",
      error := none, history := [], showHistory := false } none (by decide) (by decide)

/-- C9: when the storage write after an append fails, the failure is caught
and logged only: the in-memory history still has the new item at the front
(no rollback), nothing else in the state changes (in particular no error is
surfaced to the user), and the storage keeps its previous contents. -/
theorem addToHistory_persist_failure (now : Nat) (text response : String)
    (s : AppState) (store : Option (List HistoryItem)) :
    (addToHistory now false text response s store).1.history =
      mkHistoryItem now text response s :: s.history ∧
    (addToHistory now false text response s store).1.error = s.error ∧
    (addToHistory now false text response s store).2 = store ∧
    (addToHistory now false text response s store).1 =
      { s with history := mkHistoryItem now text response s :: s.history } :=
  ⟨rfl, rfl, rfl, rfl⟩

/-- C5 counterexample: loading a `HistoryItem` with `hasImage = false` does
NOT clear a currently-selected image — the image survives the load, so the
claim that loading "always clears any currently-selected image" fails. -/
theorem loadHistoryItem_keeps_stale_image :
    (loadHistoryItem
        { id := "1", timestamp := 1, mode := .SIMPLIFY, inputText := "t",
          response := "r", hasImage := false }
        { selectedMode := .DESCRIBE, inputText := "old", selectedImage := some "IMG",
          imageMimeType := some "image/png", isAnalyzing := false, responseContent := "",
          error := none, history := [], showHistory := true }).selectedImage = some "IMG" ∧
    some "IMG" ≠ (none : Option String) :=
  ⟨rfl, by decide⟩

/-- C5 amended: loading a `HistoryItem` restores its mode, input text and
response text, clears the error and closes the drawer; the currently selected
image is cleared exactly when the loaded item was created with an image
(`hasImage = true`) and is left untouched otherwise (image bytes are never
restored); loading is idempotent. -/
theorem loadHistoryItem_restore (item : HistoryItem) (s : AppState) :
    (loadHistoryItem item s).selectedMode = item.mode ∧
    (loadHistoryItem item s).inputText = item.inputText ∧
    (loadHistoryItem item s).responseContent = item.response ∧
    (loadHistoryItem item s).error = none ∧
    (loadHistoryItem item s).showHistory = false ∧
    (item.hasImage = true →
      (loadHistoryItem item s).selectedImage = none ∧
      (loadHistoryItem item s).imageMimeType = none) ∧
    (item.hasImage = false →
      (loadHistoryItem item s).selectedImage = s.selectedImage ∧
      (loadHistoryItem item s).imageMimeType = s.imageMimeType) ∧
    loadHistoryItem item (loadHistoryItem item s) = loadHistoryItem item s := by
  cases hi : item.hasImage <;> simp [loadHistoryItem, hi]

/-- Witness for C5 (amended): loading a concrete item that was created with an
image clears the selected image. -/
theorem loadHistoryItem_restore_witness :
    (loadHistoryItem
        { id := "9", timestamp := 9, mode := .GUIDE, inputText := "x",
          response := "y", hasImage := true }
        { selectedMode := .DESCRIBE, inputText := "old", selectedImage := some "IMG",
          imageMimeType := some "image/png", isAnalyzing := false, responseContent := "",
          error := none, history := [], showHistory := true }).selectedImage = none :=
  ((loadHistoryItem_restore
      { id := "9", timestamp := 9, mode := .GUIDE, inputText := "x",
        response := "y", hasImage := true }
      { selectedMode := .DESCRIBE, inputText := "old", selectedImage := some "IMG",
        imageMimeType := some "image/png", isAnalyzing := false, responseContent := "",
        error := none, history := [], showHistory := true }).2.2.2.2.2.1 rfl).1

/-- Recogniser for text segments, used to state that the composed content has
exactly one text segment. -/
def ContentPart.isTextSeg : ContentPart → Bool
  | .text _ => true
  | .inlineData _ _ => false

/-- Decomposition of `buildParts`: the optional inline image segment (present
exactly when both image fields are truthy) followed by the single prompt text
segment. Shared helper for the composer claims. -/
theorem buildParts_decomp (request : AnalysisRequest) :
    buildParts request =
      (if optTruthy request.imageBase64 && optTruthy request.imageMimeType then
        [ContentPart.inlineData (request.imageMimeType.getD "")
            (stripDataUrl (request.imageBase64.getD ""))]
      else []) ++
      [ContentPart.text
        ((if strTruthy request.text then
            "User Input: \x22" ++ request.text ++ "\x22\n\n"
          else "Analyze the provided image.\n\n") ++ modeTask request.mode)] := by
  unfold buildParts
  cases hi : optTruthy request.imageBase64 && optTruthy request.imageMimeType <;>
    cases ht : strTruthy request.text <;> simp

/-- C6: for every mode, text and optional image, the composed content is an
ordered list consisting of the inline image segment (present exactly when the
image payload and MIME type are both truthy) followed by exactly one text
segment; the text segment is the quoted echo of the user text (or the
fallback "Analyze the provided image.") followed by exactly one fixed
task-instruction string determined solely by the mode. Composition is a pure
Lean function of the request, hence deterministic on identical inputs. -/
theorem buildParts_shape (request : AnalysisRequest) :
    buildParts request =
      (if optTruthy request.imageBase64 && optTruthy request.imageMimeType then
        [ContentPart.inlineData (request.imageMimeType.getD "")
            (stripDataUrl (request.imageBase64.getD ""))]
      else []) ++
      [ContentPart.text
        ((if strTruthy request.text then
            "User Input: \x22" ++ request.text ++ "\x22\n\n"
          else "Analyze the provided image.\n\n") ++ modeTask request.mode)] ∧
    ((buildParts request).filter (fun p => ContentPart.isTextSeg p)).length = 1 := by
  refine ⟨buildParts_decomp request, ?_⟩
  rw [buildParts_decomp request]
  cases hi : optTruthy request.imageBase64 && optTruthy request.imageMimeType <;>
    simp [ContentPart.isTextSeg]

/-- C10: when exactly one of the image payload and the MIME type is truthy,
the inline image segment is silently omitted — the dispatched content is the
text segment only — and the request is still processed: with a truthy
credential and a backend resolving with non-empty text, the call succeeds. -/
theorem buildParts_partial_image_omitted (request : AnalysisRequest)
    (h : (optTruthy request.imageBase64 = true ∧ optTruthy request.imageMimeType = false) ∨
         (optTruthy request.imageBase64 = false ∧ optTruthy request.imageMimeType = true)) :
    buildParts request =
      [ContentPart.text
        ((if strTruthy request.text then
            "User Input: \x22" ++ request.text ++ "\x22\n\n"
          else "Analyze the provided image.\n\n") ++ modeTask request.mode)] ∧
    (∀ (apiKey : Option String) (backend : List ContentPart → BackendReply) (t : String),
      optTruthy apiKey = true → backend (buildParts request) = .ok t → t ≠ "" →
      analyzeContent apiKey backend request = { markdown := t, error := none }) := by
  have hguard : (optTruthy request.imageBase64 && optTruthy request.imageMimeType) = false := by
    rcases h with ⟨h1, h2⟩ | ⟨h1, h2⟩ <;> simp [h1, h2]
  refine ⟨?_, ?_⟩
  · have hd := buildParts_decomp request
    rw [hguard] at hd
    simpa using hd
  · intro apiKey backend t hk hb ht
    rw [analyzeContent_of_ok apiKey backend request t hk hb, if_neg ht]

/-- Witness for C10: a concrete request with an image payload but no MIME
type dispatches only the text segment and succeeds against a backend that
returns non-empty text. -/
theorem buildParts_partial_image_omitted_witness :
    buildParts { text := "hi", imageBase64 := some "QUJD", imageMimeType := none,
                 mode := .DESCRIBE } =
      [ContentPart.text ("User Input: \x22hi\x22\n\n" ++ modeTask .DESCRIBE)] ∧
    analyzeContent (some "key") (fun _ => .ok "out")
        { text := "hi", imageBase64 := some "QUJD", imageMimeType := none,
          mode := .DESCRIBE } =
      { markdown := "out", error := none } := by
  have h := buildParts_partial_image_omitted
    { text := "hi", imageBase64 := some "QUJD", imageMimeType := none, mode := .DESCRIBE }
    (Or.inl ⟨rfl, rfl⟩)
  exact ⟨h.1, h.2 (some "key") (fun _ => .ok "out") "out" rfl rfl (by decide)⟩

/-- C8 counterexample: the line "## a **b**" contains the bold delimiter
"**" but is rendered as a sub-heading — the heading branch precedes the bold
branch — not as a paragraph with runs split on the delimiter. -/
theorem renderLine_heading_beats_bold :
    renderContent "## a **b**" = [Rendered.subheading "a **b**"] ∧
    Rendered.subheading "a **b**" ≠ Rendered.boldPara (jsSplit "## a **b**" "**") := by
  decide

/-- C8 amended: for every line that is not matched by an earlier branch (it
does not start with "## " or "# ", and its trimmed form does not start with
"* " or "- ") and contains the delimiter "**", the renderer emits a paragraph
whose runs are the segments of the line split on every occurrence of "**",
odd-indexed runs bold and even-indexed runs plain; in particular a line with
exactly two delimiters yields three runs plain/bold/plain with the middle run
the text between the delimiters. -/
theorem renderLine_bold_split :
    (∀ line : String,
      jsStartsWith line "## " = false →
      jsStartsWith line "# " = false →
      (jsStartsWith (jsTrim line) "* " || jsStartsWith (jsTrim line) "- ") = false →
      jsIncludes line "**" = true →
      renderLine line = Rendered.boldPara (jsSplit line "**")) ∧
    renderLine "x **y** z" = Rendered.boldPara ["x ", "y", " z"] := by
  constructor
  · intro line h1 h2 h3 h4
    simp [renderLine, h1, h2, h3, h4]
  · decide

/-- Witness for C8 (amended): the concrete line "a **b**" renders as a
paragraph with runs plain "a ", bold "b", plain "". -/
theorem renderLine_bold_split_witness :
    renderLine "a **b**" = Rendered.boldPara ["a ", "b", ""] :=
  renderLine_bold_split.1 "a **b**" (by decide) (by decide) (by decide) (by decide)
